import Mathlib

/-!
Verification of the particle-morph animation engine (`src/src/App.tsx`).

The TypeScript source is shallowly embedded here:
* JavaScript numbers are modelled as real numbers (`ℝ`).
* `Math.random()` draws are modelled by explicit random streams
  (`ℕ → ℝ`), valued in `[0, 1)` where a theorem needs it; the order of
  the draws follows the order of the `Math.random()` calls in the source.
* The off-screen canvas rasterization (`fillText` / `getImageData`) is an
  external platform capability; its result, the alpha channel
  `imageData[(y * width + x) * 4 + 3]`, is modelled as a function
  `alpha : ℕ → ℕ → ℕ`.  `document.createElement('canvas').getContext('2d')`
  may return `null`, so `getTextPoints` receives an `Option` of that mask
  (the `none` case is the source's `if (!offscreenCtx) return [];` branch).
-/

namespace Morph

/-- `const PARTICLE_COUNT = 2800`. -/
def PARTICLE_COUNT : ℕ := 2800

/-- `const HEART_SCALE = 14`. -/
def HEART_SCALE : ℝ := 14

/-- `const BASE_TEXT_SIZE = 150`. -/
def BASE_TEXT_SIZE : ℝ := 150

/-- `const MOUSE_RADIUS = 100`. -/
def MOUSE_RADIUS : ℝ := 100

/-- `const COLORS = [...]`. -/
def COLORS : List String := ["#ff2d55", "#ff375f", "#ff1744", "#f50057", "#d500f9"]

/-- `interface Point { x: number; y: number }`. -/
structure Point where
  x : ℝ
  y : ℝ

instance : Inhabited Point := ⟨⟨0, 0⟩⟩

/-- The fields of `class Particle`. -/
structure Particle where
  x : ℝ
  y : ℝ
  targetX : ℝ
  targetY : ℝ
  vx : ℝ
  vy : ℝ
  size : ℝ
  baseSize : ℝ
  friction : ℝ
  ease : ℝ
  color : String
  opacity : ℝ
  twinkleSpeed : ℝ

/-- A default particle, used only as the out-of-range default of `List.getD`. -/
def dp : Particle :=
  { x := 0, y := 0, targetX := 0, targetY := 0, vx := 0, vy := 0, size := 0,
    baseSize := 0, friction := 0, ease := 0, color := "", opacity := 0,
    twinkleSpeed := 0 }

instance : Inhabited Particle := ⟨dp⟩

/-- `constructor(x, y)` of `Particle`.  `W`, `H` are `window.innerWidth` /
`window.innerHeight`; `r 0 .. r 8` are the nine `Math.random()` draws in
source order (position x, position y, vx, vy, baseSize, ease, color index,
opacity, twinkleSpeed). -/
noncomputable def mkParticle (W H x y : ℝ) (r : ℕ → ℝ) : Particle :=
  { x := r 0 * W
    y := r 1 * H
    targetX := x
    targetY := y
    vx := (r 2 - 0.5) * 10
    vy := (r 3 - 0.5) * 10
    baseSize := r 4 * 1.5 + 0.8
    size := r 4 * 1.5 + 0.8
    friction := 0.9
    ease := 0.05 + r 5 * 0.05
    color := COLORS.getD (Int.toNat ⌊r 6 * (COLORS.length : ℝ)⌋) ""
    opacity := r 7
    twinkleSpeed := 0.01 + r 8 * 0.02 }

/-- JavaScript's `Math.atan2(y, x)`, the argument of the complex number
`x + i y` (both return `0` at the origin). -/
noncomputable def atan2 (y x : ℝ) : ℝ := Complex.arg ⟨x, y⟩

/-- `Particle.update(mouseX, mouseY)`, the per-tick integration step,
line by line from the source. -/
noncomputable def Particle.update (p : Particle) (mouseX mouseY : ℝ) : Particle :=
  let dx := p.targetX - p.x
  let dy := p.targetY - p.y
  let vx1 := p.vx + dx * p.ease
  let vy1 := p.vy + dy * p.ease
  let mdx := p.x - mouseX
  let mdy := p.y - mouseY
  let distSq := mdx * mdx + mdy * mdy
  let radiusSq := MOUSE_RADIUS * MOUSE_RADIUS
  let vx2 :=
    if distSq < radiusSq then
      let dist := Real.sqrt distSq
      let force := (MOUSE_RADIUS - dist) / MOUSE_RADIUS
      let angle := atan2 mdy mdx
      let push := force * 15
      vx1 + Real.cos angle * push
    else vx1
  let vy2 :=
    if distSq < radiusSq then
      let dist := Real.sqrt distSq
      let force := (MOUSE_RADIUS - dist) / MOUSE_RADIUS
      let angle := atan2 mdy mdx
      let push := force * 15
      vy1 + Real.sin angle * push
    else vy1
  let vx3 := vx2 * p.friction
  let vy3 := vy2 * p.friction
  let x1 := p.x + vx3
  let y1 := p.y + vy3
  let opacity1 := p.opacity + p.twinkleSpeed
  let twinkle1 :=
    if opacity1 > 1 ∨ opacity1 < 0.4 then p.twinkleSpeed * (-1) else p.twinkleSpeed
  { p with vx := vx3, vy := vy3, x := x1, y := y1,
           opacity := opacity1, twinkleSpeed := twinkle1 }

/-- One point of `getHeartPoints`: the body of the sampling loop, where
`r` is the `Math.random()` draw of that iteration. -/
noncomputable def heartPoint (width height : ℝ) (r : ℝ) : Point :=
  let t := r * Real.pi * 2
  let x := 16 * Real.sin t ^ 3
  let y := -(13 * Real.cos t - 5 * Real.cos (2 * t) - 2 * Real.cos (3 * t) -
      Real.cos (4 * t))
  { x := width / 2 + x * HEART_SCALE
    y := height / 2 + y * HEART_SCALE }

/-- `getHeartPoints(width, height)`; `rand i` is the `Math.random()` draw of
loop iteration `i`. -/
noncomputable def getHeartPoints (width height : ℝ) (rand : ℕ → ℝ) : List Point :=
  (List.range PARTICLE_COUNT).map fun i => heartPoint width height (rand i)

/-- The font size computed in `getTextPoints`:
`Math.min(BASE_TEXT_SIZE, (width / (text.length || 1)) * 1.4)`. -/
noncomputable def fontSize (text : String) (width : ℕ) : ℝ :=
  min BASE_TEXT_SIZE
    ((width : ℝ) / ((if text.length = 0 then 1 else text.length : ℕ) : ℝ) * 1.4)

/-- The grid scan of `getTextPoints`: every pixel `(x, y)` with
`x < width`, `y < height`, both multiples of `step = 2`, whose alpha byte
`imageData[(y * width + x) * 4 + 3]` exceeds `128`, collected in the
source's loop order (`y` outer, `x` inner). -/
def textCandidates (alpha : ℕ → ℕ → ℕ) (width height : ℕ) : List (ℕ × ℕ) :=
  (List.range ((height + 1) / 2)).flatMap fun j =>
    (List.range ((width + 1) / 2)).filterMap fun i =>
      if 128 < alpha (2 * i) (2 * j) then some (2 * i, 2 * j) else none

/-- Running minimum `minX` of the scan (initial value `width`). -/
def bboxMinX (alpha : ℕ → ℕ → ℕ) (width height : ℕ) : ℕ :=
  (textCandidates alpha width height).foldl (fun m p => min m p.1) width

/-- Running maximum `maxX` of the scan (initial value `0`). -/
def bboxMaxX (alpha : ℕ → ℕ → ℕ) (width height : ℕ) : ℕ :=
  (textCandidates alpha width height).foldl (fun m p => max m p.1) 0

/-- Running minimum `minY` of the scan (initial value `height`). -/
def bboxMinY (alpha : ℕ → ℕ → ℕ) (width height : ℕ) : ℕ :=
  (textCandidates alpha width height).foldl (fun m p => min m p.2) height

/-- Running maximum `maxY` of the scan (initial value `0`). -/
def bboxMaxY (alpha : ℕ → ℕ → ℕ) (width height : ℕ) : ℕ :=
  (textCandidates alpha width height).foldl (fun m p => max m p.2) 0

/-- `offsetX = (width - textWidth) / 2 - minX` (real arithmetic). -/
noncomputable def offsetX (alpha : ℕ → ℕ → ℕ) (width height : ℕ) : ℝ :=
  ((width : ℝ) - ((bboxMaxX alpha width height : ℝ) - (bboxMinX alpha width height : ℝ))) / 2
    - (bboxMinX alpha width height : ℝ)

/-- `offsetY = (height - textHeight) / 2 - minY` (real arithmetic). -/
noncomputable def offsetY (alpha : ℕ → ℕ → ℕ) (width height : ℕ) : ℝ :=
  ((height : ℝ) - ((bboxMaxY alpha width height : ℝ) - (bboxMinY alpha width height : ℝ))) / 2
    - (bboxMinY alpha width height : ℝ)

/-- `getTextPoints(text, width, height)`.

`ctx` is the result of `offscreenCanvas.getContext('2d')`: `none` is the
`if (!offscreenCtx) return [];` branch; `some alpha` carries the alpha
channel the external rasterization produced for this text and canvas size.
`rand` is the `Math.random()` stream used from this call on; the body of
result-loop iteration `i` draws, in source order, `rand (3 * i)` for
`randomIndex` and `rand (3 * i + 1)`, `rand (3 * i + 2)` for the two
jitters, and the degenerate-case call of `getHeartPoints` consumes the
same stream. -/
noncomputable def getTextPoints (ctx : Option (ℕ → ℕ → ℕ)) (text : String)
    (width height : ℕ) (rand : ℕ → ℝ) : List Point :=
  match ctx with
  | none => []
  | some alpha =>
    let _fs := fontSize text width
    let sampledPoints := textCandidates alpha width height
    if sampledPoints.length = 0 then getHeartPoints (width : ℝ) (height : ℝ) rand
    else
      (List.range PARTICLE_COUNT).map fun i =>
        let randomIndex := ⌊rand (3 * i) * (sampledPoints.length : ℝ)⌋₊
        let p := sampledPoints.getD randomIndex (0, 0)
        { x := (p.1 : ℝ) + offsetX alpha width height + (rand (3 * i + 1) - 0.5) * 1.5
          y := (p.2 : ℝ) + offsetY alpha width height + (rand (3 * i + 2) - 0.5) * 1.5 }

/-- `p.targetX = q.x; p.targetY = q.y` — the body of the `forEach` in
`updateTargets`. -/
def setTarget (p : Particle) (q : Point) : Particle :=
  { p with targetX := q.x, targetY := q.y }

/-- The `forEach` of `updateTargets` from index `i` on: particle `k` of the
remaining list receives `newPoints[i + k]` as its target. -/
def updateTargetsFrom (pts : List Point) : ℕ → List Particle → List Particle
  | _, [] => []
  | i, p :: ps => setTarget p (pts.getD i default) :: updateTargetsFrom pts (i + 1) ps

/-- `updateTargets`: reassign `targetX` / `targetY` of every particle from
the freshly sampled point list, positionally. -/
def updateTargets (ps : List Particle) (pts : List Point) : List Particle :=
  updateTargetsFrom pts 0 ps

/-- `n` animation-loop ticks of one particle: tick `k` calls
`p.update(mouse.current.x, mouse.current.y)` with the mouse position
`mouse k` current at that frame. -/
noncomputable def ticks (mouse : ℕ → ℝ × ℝ) (p : Particle) : ℕ → Particle
  | 0 => p
  | n + 1 => (ticks mouse p n).update (mouse n).1 (mouse n).2

/-! ### Helper notions and lemmas -/

/-- Equality of all `Particle` fields except `targetX` / `targetY`. -/
def nonTargetEq (p q : Particle) : Prop :=
  p.x = q.x ∧ p.y = q.y ∧ p.vx = q.vx ∧ p.vy = q.vy ∧ p.size = q.size ∧
  p.baseSize = q.baseSize ∧ p.color = q.color ∧ p.ease = q.ease ∧
  p.friction = q.friction ∧ p.opacity = q.opacity ∧ p.twinkleSpeed = q.twinkleSpeed

theorem nonTargetEq_refl (p : Particle) : nonTargetEq p p :=
  ⟨rfl, rfl, rfl, rfl, rfl, rfl, rfl, rfl, rfl, rfl, rfl⟩

theorem nonTargetEq_trans {p q r : Particle} (h : nonTargetEq p q)
    (g : nonTargetEq q r) : nonTargetEq p r := by
  obtain ⟨h1, h2, h3, h4, h5, h6, h7, h8, h9, h10, h11⟩ := h
  obtain ⟨g1, g2, g3, g4, g5, g6, g7, g8, g9, g10, g11⟩ := g
  exact ⟨h1.trans g1, h2.trans g2, h3.trans g3, h4.trans g4, h5.trans g5,
    h6.trans g6, h7.trans g7, h8.trans g8, h9.trans g9, h10.trans g10, h11.trans g11⟩

theorem updateTargetsFrom_length (pts : List Point) :
    ∀ (ps : List Particle) (i : ℕ), (updateTargetsFrom pts i ps).length = ps.length
  | [], _ => rfl
  | _ :: ps, i => by
    simp only [updateTargetsFrom, List.length_cons,
      updateTargetsFrom_length pts ps (i + 1)]

theorem updateTargetsFrom_getD (pts : List Point) :
    ∀ (ps : List Particle) (i n : ℕ),
      nonTargetEq ((updateTargetsFrom pts i ps).getD n dp) (ps.getD n dp)
  | [], _, _ => nonTargetEq_refl _
  | p :: ps, i, 0 => by
    simp only [updateTargetsFrom, List.getD_cons_zero]
    exact ⟨rfl, rfl, rfl, rfl, rfl, rfl, rfl, rfl, rfl, rfl, rfl⟩
  | p :: ps, i, n + 1 => by
    simp only [updateTargetsFrom, List.getD_cons_succ]
    exact updateTargetsFrom_getD pts ps (i + 1) n

theorem updateTargets_length (ps : List Particle) (pts : List Point) :
    (updateTargets ps pts).length = ps.length :=
  updateTargetsFrom_length pts ps 0

theorem updateTargets_getD (ps : List Particle) (pts : List Point) (n : ℕ) :
    nonTargetEq ((updateTargets ps pts).getD n dp) (ps.getD n dp) :=
  updateTargetsFrom_getD pts ps 0 n

/-! ### Claims -/

/-- **C1.** For every text input and every viewport size, whenever the
platform supplies a 2D rasterization context, the shape sampler
(`getTextPoints` for text, `getHeartPoints` otherwise) returns exactly
`PARTICLE_COUNT = 2800` points — never an empty or undersized list. -/
theorem sampler_count_invariance (alpha : ℕ → ℕ → ℕ) (text : String)
    (width height : ℕ) (rand : ℕ → ℝ) (Wr Hr : ℝ) (rand2 : ℕ → ℝ) :
    (getTextPoints (some alpha) text width height rand).length = PARTICLE_COUNT ∧
    (getHeartPoints Wr Hr rand2).length = PARTICLE_COUNT := by
  constructor
  · rw [getTextPoints]
    by_cases h : (textCandidates alpha width height).length = 0
    · simp only [h, if_true, reduceIte, getHeartPoints, List.length_map,
        List.length_range]
    · simp only [h, if_false, reduceIte, List.length_map, List.length_range]
  · simp only [getHeartPoints, List.length_map, List.length_range]

/-- **C4.** If the rasterized text yields zero sample-eligible pixels,
`getTextPoints` returns exactly the heart sampling for the same viewport
(and the same random stream), so no particle is left without a target. -/
theorem text_fallback_heart (alpha : ℕ → ℕ → ℕ) (text : String)
    (width height : ℕ) (rand : ℕ → ℝ)
    (h : textCandidates alpha width height = []) :
    getTextPoints (some alpha) text width height rand =
      getHeartPoints (width : ℝ) (height : ℝ) rand := by
  rw [getTextPoints]
  simp only [h, List.length_nil, if_true, reduceIte]

/-- Witness for C4: the all-transparent mask on a 4×4 canvas yields no
candidates, and text sampling falls back to heart sampling. -/
theorem text_fallback_heart_witness :
    textCandidates (fun _ _ => 0) 4 4 = [] ∧
    getTextPoints (some fun _ _ => 0) "hi" 4 4 (fun _ => 0) =
      getHeartPoints ((4 : ℕ) : ℝ) ((4 : ℕ) : ℝ) (fun _ => 0) :=
  ⟨by decide, text_fallback_heart _ "hi" 4 4 _ (by decide)⟩

/-- **C6 (amended).** `ease` and `twinkleSpeed` are per-particle randomized
constants fixed at construction (distinct draws give distinct values), but
`friction` is the fixed constant `0.9` for every particle — it does not
vary across the population. -/
theorem construction_constants (W H x y W2 H2 x2 y2 : ℝ) (r r2 : ℕ → ℝ)
    (h5 : r 5 ≠ r2 5) (h8 : r 8 ≠ r2 8) :
    (mkParticle W H x y r).friction = 0.9 ∧
    (mkParticle W2 H2 x2 y2 r2).friction = 0.9 ∧
    (mkParticle W H x y r).ease = 0.05 + r 5 * 0.05 ∧
    (mkParticle W H x y r).twinkleSpeed = 0.01 + r 8 * 0.02 ∧
    (mkParticle W H x y r).ease ≠ (mkParticle W2 H2 x2 y2 r2).ease ∧
    (mkParticle W H x y r).twinkleSpeed ≠ (mkParticle W2 H2 x2 y2 r2).twinkleSpeed := by
  refine ⟨rfl, rfl, rfl, rfl, ?_, ?_⟩
  · show (0.05 : ℝ) + r 5 * 0.05 ≠ 0.05 + r2 5 * 0.05
    intro heq
    exact h5 (by linarith)
  · show (0.01 : ℝ) + r 8 * 0.02 ≠ 0.01 + r2 8 * 0.02
    intro heq
    exact h8 (by linarith)

/-- Witness for C6 (amended), at two concrete random streams. -/
theorem construction_constants_witness :
    ((fun _ : ℕ => (0 : ℝ)) 5 ≠ (fun _ : ℕ => (1 / 2 : ℝ)) 5) ∧
    (mkParticle 800 600 0 0 (fun _ => 0)).friction = 0.9 ∧
    (mkParticle 100 100 1 1 (fun _ => 1 / 2)).friction = 0.9 ∧
    (mkParticle 800 600 0 0 (fun _ => 0)).ease =
      0.05 + (fun _ : ℕ => (0 : ℝ)) 5 * 0.05 ∧
    (mkParticle 800 600 0 0 (fun _ => 0)).twinkleSpeed =
      0.01 + (fun _ : ℕ => (0 : ℝ)) 8 * 0.02 ∧
    (mkParticle 800 600 0 0 (fun _ => 0)).ease ≠
      (mkParticle 100 100 1 1 (fun _ => 1 / 2)).ease ∧
    (mkParticle 800 600 0 0 (fun _ => 0)).twinkleSpeed ≠
      (mkParticle 100 100 1 1 (fun _ => 1 / 2)).twinkleSpeed := by
  refine ⟨by norm_num, ?_⟩
  have h := construction_constants 800 600 0 0 100 100 1 1
    (fun _ => 0) (fun _ => 1 / 2) (by norm_num) (by norm_num)
  exact ⟨h.1, h.2.1, h.2.2.1, h.2.2.2.1, h.2.2.2.2.1, h.2.2.2.2.2⟩

/-- Counterexample for C6 as stated: `friction` never differs between any
two constructed particles — it is not a randomized, population-varying
constant (the constructor sets `this.friction = 0.9` unconditionally). -/
theorem friction_never_varies :
    ¬ ∃ (W H x y W2 H2 x2 y2 : ℝ) (r r2 : ℕ → ℝ),
      (mkParticle W H x y r).friction ≠ (mkParticle W2 H2 x2 y2 r2).friction := by
  rintro ⟨W, H, x, y, W2, H2, x2, y2, r, r2, h⟩
  exact h rfl

/-- **C7.** Retargeting (any number of `updateTargets` events, each with an
arbitrary freshly sampled point list) changes only `targetX` / `targetY`:
the collection length and every particle's position, velocity, size,
color (and all other non-target fields) are unchanged. -/
theorem retargeting_preserves_state (ps : List Particle)
    (tss : List (List Point)) (n : ℕ) :
    (tss.foldl updateTargets ps).length = ps.length ∧
    nonTargetEq ((tss.foldl updateTargets ps).getD n dp) (ps.getD n dp) := by
  induction tss generalizing ps with
  | nil => exact ⟨rfl, nonTargetEq_refl _⟩
  | cons ts tss ih =>
    rw [List.foldl_cons]
    obtain ⟨hlen, heq⟩ := ih (updateTargets ps ts)
    exact ⟨hlen.trans (updateTargets_length ps ts),
      nonTargetEq_trans heq (updateTargets_getD ps ts n)⟩

/-- **C10.** `Particle.update` is deterministic and uses no randomness: two
particles agreeing on position, velocity, target, ease, friction, opacity
and twinkle speed (whatever their size or color), updated with the same
mouse coordinates, agree on all those fields afterwards. -/
theorem update_deterministic (p q : Particle) (mx my : ℝ)
    (h1 : p.x = q.x) (h2 : p.y = q.y) (h3 : p.vx = q.vx) (h4 : p.vy = q.vy)
    (h5 : p.targetX = q.targetX) (h6 : p.targetY = q.targetY)
    (h7 : p.ease = q.ease) (h8 : p.friction = q.friction)
    (h9 : p.opacity = q.opacity) (h10 : p.twinkleSpeed = q.twinkleSpeed) :
    (p.update mx my).x = (q.update mx my).x ∧
    (p.update mx my).y = (q.update mx my).y ∧
    (p.update mx my).vx = (q.update mx my).vx ∧
    (p.update mx my).vy = (q.update mx my).vy ∧
    (p.update mx my).targetX = (q.update mx my).targetX ∧
    (p.update mx my).targetY = (q.update mx my).targetY ∧
    (p.update mx my).ease = (q.update mx my).ease ∧
    (p.update mx my).friction = (q.update mx my).friction ∧
    (p.update mx my).opacity = (q.update mx my).opacity ∧
    (p.update mx my).twinkleSpeed = (q.update mx my).twinkleSpeed := by
  simp only [Particle.update]
  rw [h1, h2, h3, h4, h5, h6, h7, h8, h9, h10]
  exact ⟨rfl, rfl, rfl, rfl, rfl, rfl, rfl, rfl, rfl, rfl⟩

/-- Witness for C10: two concrete particles differing only in size and
color evolve identically on the shared fields. -/
theorem update_deterministic_witness :
    (Particle.update
        { x := 3, y := 4, targetX := 10, targetY := 20, vx := 1, vy := 2,
          size := 1, baseSize := 1, friction := 0.9, ease := 0.05,
          color := "#ff2d55", opacity := 0.5, twinkleSpeed := 0.02 } 7 8).x =
      (Particle.update
        { x := 3, y := 4, targetX := 10, targetY := 20, vx := 1, vy := 2,
          size := 2, baseSize := 2, friction := 0.9, ease := 0.05,
          color := "#d500f9", opacity := 0.5, twinkleSpeed := 0.02 } 7 8).x ∧
    (Particle.update
        { x := 3, y := 4, targetX := 10, targetY := 20, vx := 1, vy := 2,
          size := 1, baseSize := 1, friction := 0.9, ease := 0.05,
          color := "#ff2d55", opacity := 0.5, twinkleSpeed := 0.02 } 7 8).vx =
      (Particle.update
        { x := 3, y := 4, targetX := 10, targetY := 20, vx := 1, vy := 2,
          size := 2, baseSize := 2, friction := 0.9, ease := 0.05,
          color := "#d500f9", opacity := 0.5, twinkleSpeed := 0.02 } 7 8).vx := by
  have h := update_deterministic
    { x := 3, y := 4, targetX := 10, targetY := 20, vx := 1, vy := 2,
      size := 1, baseSize := 1, friction := 0.9, ease := 0.05,
      color := "#ff2d55", opacity := 0.5, twinkleSpeed := 0.02 }
    { x := 3, y := 4, targetX := 10, targetY := 20, vx := 1, vy := 2,
      size := 2, baseSize := 2, friction := 0.9, ease := 0.05,
      color := "#d500f9", opacity := 0.5, twinkleSpeed := 0.02 }
    7 8 rfl rfl rfl rfl rfl rfl rfl rfl rfl rfl
  exact ⟨h.1, h.2.2.1⟩

theorem cos_atan2 (y x : ℝ) (h : x * x + y * y ≠ 0) :
    Real.cos (atan2 y x) = x / Real.sqrt (x * x + y * y) := by
  have hz : (⟨x, y⟩ : ℂ) ≠ 0 := by
    simp only [ne_eq, Complex.ext_iff, Complex.zero_re, Complex.zero_im, not_and]
    intro hx hy
    exact absurd (by rw [hx, hy]; ring) h
  rw [atan2, Complex.cos_arg hz, Complex.abs_apply, Complex.normSq_mk]

theorem sin_atan2 (y x : ℝ) :
    Real.sin (atan2 y x) = y / Real.sqrt (x * x + y * y) := by
  rw [atan2, Complex.sin_arg, Complex.abs_apply, Complex.normSq_mk]

/-- **C2.** One `Particle.update(mx, my)` call performs, in order:
(1) velocity += (target − position) · ease; (2) if the squared distance to
the mouse is below `MOUSE_RADIUS²`, an impulse along the unit vector
pointing from the mouse to the particle, of magnitude
`(MOUSE_RADIUS − dist) / MOUSE_RADIUS · 15`, is added — and no impulse is
added at or beyond the radius; (3) velocity ·= friction;
(4) position += velocity.  (Stated for a mouse not exactly on the
particle, where "directed away from the mouse" is well defined.) -/
theorem update_step_characterization (p : Particle) (mx my : ℝ)
    (h : (p.x - mx) * (p.x - mx) + (p.y - my) * (p.y - my) ≠ 0) :
    (p.update mx my).vx =
      (p.vx + (p.targetX - p.x) * p.ease +
        (if (p.x - mx) * (p.x - mx) + (p.y - my) * (p.y - my) <
            MOUSE_RADIUS * MOUSE_RADIUS then
          (MOUSE_RADIUS -
              Real.sqrt ((p.x - mx) * (p.x - mx) + (p.y - my) * (p.y - my))) /
            MOUSE_RADIUS * 15 *
            ((p.x - mx) /
              Real.sqrt ((p.x - mx) * (p.x - mx) + (p.y - my) * (p.y - my)))
        else 0)) * p.friction ∧
    (p.update mx my).vy =
      (p.vy + (p.targetY - p.y) * p.ease +
        (if (p.x - mx) * (p.x - mx) + (p.y - my) * (p.y - my) <
            MOUSE_RADIUS * MOUSE_RADIUS then
          (MOUSE_RADIUS -
              Real.sqrt ((p.x - mx) * (p.x - mx) + (p.y - my) * (p.y - my))) /
            MOUSE_RADIUS * 15 *
            ((p.y - my) /
              Real.sqrt ((p.x - mx) * (p.x - mx) + (p.y - my) * (p.y - my)))
        else 0)) * p.friction ∧
    (p.update mx my).x = p.x + (p.update mx my).vx ∧
    (p.update mx my).y = p.y + (p.update mx my).vy := by
  simp only [Particle.update]
  by_cases hin : (p.x - mx) * (p.x - mx) + (p.y - my) * (p.y - my) <
      MOUSE_RADIUS * MOUSE_RADIUS
  · simp only [hin, if_true, reduceIte, cos_atan2 (p.y - my) (p.x - mx) h,
      sin_atan2 (p.y - my) (p.x - mx)]
    refine ⟨by ring, by ring, trivial, trivial⟩
  · simp only [hin, if_false, reduceIte]
    refine ⟨by ring, by ring, trivial, trivial⟩

/-- Witness for C2: a particle at distance 50 from the mouse (inside the
interaction radius 100), with `√2500 = 50` evaluated concretely. -/
theorem update_step_characterization_witness :
    ((3 : ℝ) - (-27)) * ((3 : ℝ) - (-27)) + ((4 : ℝ) - (-36)) * ((4 : ℝ) - (-36)) ≠ 0 ∧
    ((Particle.update
        { x := 3, y := 4, targetX := 10, targetY := 20, vx := 1, vy := 2,
          size := 1, baseSize := 1, friction := 0.9, ease := 0.05,
          color := "#ff2d55", opacity := 0.5, twinkleSpeed := 0.02 }
        (-27) (-36)).vx =
      ((1 : ℝ) + ((10 : ℝ) - 3) * 0.05 +
        (if ((3 : ℝ) - (-27)) * ((3 : ℝ) - (-27)) +
            ((4 : ℝ) - (-36)) * ((4 : ℝ) - (-36)) <
            MOUSE_RADIUS * MOUSE_RADIUS then
          (MOUSE_RADIUS -
              Real.sqrt (((3 : ℝ) - (-27)) * ((3 : ℝ) - (-27)) +
                ((4 : ℝ) - (-36)) * ((4 : ℝ) - (-36)))) /
            MOUSE_RADIUS * 15 *
            (((3 : ℝ) - (-27)) /
              Real.sqrt (((3 : ℝ) - (-27)) * ((3 : ℝ) - (-27)) +
                ((4 : ℝ) - (-36)) * ((4 : ℝ) - (-36))))
        else 0)) * 0.9) := by
  constructor
  · norm_num
  · exact (update_step_characterization
      { x := 3, y := 4, targetX := 10, targetY := 20, vx := 1, vy := 2,
        size := 1, baseSize := 1, friction := 0.9, ease := 0.05,
        color := "#ff2d55", opacity := 0.5, twinkleSpeed := 0.02 }
      (-27) (-36) (by norm_num)).1

theorem update_opacity (p : Particle) (mx my : ℝ) :
    (p.update mx my).opacity = p.opacity + p.twinkleSpeed := rfl

theorem update_twinkleSpeed (p : Particle) (mx my : ℝ) :
    (p.update mx my).twinkleSpeed =
      if p.opacity + p.twinkleSpeed > 1 ∨ p.opacity + p.twinkleSpeed < 0.4
      then p.twinkleSpeed * (-1) else p.twinkleSpeed := rfl

/-- The twinkle invariant: the speed has constant magnitude `c`, and the
opacity is inside `[0.4, 1]`, or just above `1` moving down, or just below
`0.4` moving up. -/
def opacityInv (c : ℝ) (p : Particle) : Prop :=
  (p.twinkleSpeed = c ∨ p.twinkleSpeed = -c) ∧
  ((0.4 ≤ p.opacity ∧ p.opacity ≤ 1) ∨
   (1 < p.opacity ∧ p.opacity ≤ 1 + c ∧ p.twinkleSpeed = -c) ∨
   (0.4 - c ≤ p.opacity ∧ p.opacity < 0.4 ∧ p.twinkleSpeed = c))

theorem opacityInv_update (c : ℝ) (hc : 0 < c) (hc6 : c ≤ 0.6) (p : Particle)
    (mx my : ℝ) (h : opacityInv c p) : opacityInv c (p.update mx my) := by
  obtain ⟨hs, hcase⟩ := h
  have ho : (p.update mx my).opacity = p.opacity + p.twinkleSpeed :=
    update_opacity p mx my
  have ht := update_twinkleSpeed p mx my
  by_cases hcond : p.opacity + p.twinkleSpeed > 1 ∨ p.opacity + p.twinkleSpeed < 0.4
  · rw [if_pos hcond] at ht
    rcases hcond with hgt | hlt
    · have hsc : p.twinkleSpeed = c := by
        rcases hs with hs | hs
        · exact hs
        · exfalso
          rcases hcase with ⟨h1, h2⟩ | ⟨h1, h2, h3⟩ | ⟨h1, h2, h3⟩
          · rw [hs] at hgt; linarith
          · rw [hs] at hgt; linarith
          · rw [h3] at hs; linarith
      have hle : p.opacity ≤ 1 := by
        rcases hcase with ⟨h1, h2⟩ | ⟨h1, h2, h3⟩ | ⟨h1, h2, h3⟩
        · exact h2
        · exfalso; rw [hsc] at h3; linarith
        · linarith
      refine ⟨Or.inr (by rw [ht, hsc]; ring),
        Or.inr (Or.inl ⟨by rw [ho]; exact hgt,
          by rw [ho, hsc]; linarith, by rw [ht, hsc]; ring⟩)⟩
    · have hsc : p.twinkleSpeed = -c := by
        rcases hs with hs | hs
        · exfalso
          rcases hcase with ⟨h1, h2⟩ | ⟨h1, h2, h3⟩ | ⟨h1, h2, h3⟩
          · rw [hs] at hlt; linarith
          · rw [hs] at h3; linarith
          · rw [hs] at hlt; linarith
        · exact hs
      have hge : 0.4 ≤ p.opacity := by
        rcases hcase with ⟨h1, h2⟩ | ⟨h1, h2, h3⟩ | ⟨h1, h2, h3⟩
        · exact h1
        · linarith
        · exfalso; rw [hsc] at h3; linarith
      refine ⟨Or.inl (by rw [ht, hsc]; ring),
        Or.inr (Or.inr ⟨by rw [ho, hsc]; linarith,
          by rw [ho]; exact hlt, by rw [ht, hsc]; ring⟩)⟩
  · rw [if_neg hcond] at ht
    push_neg at hcond
    obtain ⟨hle1, hge04⟩ := hcond
    exact ⟨by rw [ht]; exact hs, Or.inl ⟨by rw [ho]; linarith, by rw [ho]; exact hle1⟩⟩

theorem opacityInv_bounds {c : ℝ} (hc : 0 < c) {p : Particle}
    (h : opacityInv c p) : 0.4 - c ≤ p.opacity ∧ p.opacity ≤ 1 + c := by
  obtain ⟨-, hcase⟩ := h
  rcases hcase with ⟨h1, h2⟩ | ⟨h1, h2, -⟩ | ⟨h1, h2, -⟩ <;>
    exact ⟨by linarith, by linarith⟩

/-- **C3 (amended).** For a particle satisfying the twinkle invariant (in
particular any particle whose opacity lies in `[0.4, 1]`) with twinkle
magnitude `c ≤ 0.03`, after arbitrarily many ticks the opacity stays in
`[0.4 − c, 1 + c]`, the twinkle speed keeps magnitude `c`, and whenever an
increment exits `[0.4, 1]` the oscillation direction flips.  The claim as
stated is false: the constructor draws the initial opacity uniformly from
`[0, 1)`, so it can start (and then remain) far below `0.4 − ε`. -/
theorem opacity_band (c : ℝ) (p : Particle) (mouse : ℕ → ℝ × ℝ)
    (hc : 0 < c) (hc2 : c ≤ 0.03) (h : opacityInv c p) (n : ℕ) :
    (0.4 - c ≤ (ticks mouse p n).opacity ∧ (ticks mouse p n).opacity ≤ 1 + c) ∧
    ((ticks mouse p n).twinkleSpeed = c ∨ (ticks mouse p n).twinkleSpeed = -c) ∧
    (((ticks mouse p n).opacity + (ticks mouse p n).twinkleSpeed > 1 ∨
      (ticks mouse p n).opacity + (ticks mouse p n).twinkleSpeed < 0.4) →
      (ticks mouse p (n + 1)).twinkleSpeed = -(ticks mouse p n).twinkleSpeed) := by
  have hinv : ∀ k, opacityInv c (ticks mouse p k) := by
    intro k
    induction k with
    | zero => exact h
    | succ k ih => exact opacityInv_update c hc (le_trans hc2 (by norm_num)) _ _ _ ih
  refine ⟨opacityInv_bounds hc (hinv n), (hinv n).1, ?_⟩
  intro hcond
  have e : ticks mouse p (n + 1) =
      (ticks mouse p n).update (mouse n).1 (mouse n).2 := rfl
  rw [e, update_twinkleSpeed, if_pos hcond]
  ring

/-- Witness for C3 (amended): a particle starting at opacity `0.5` with
twinkle speed `0.02`, checked after three ticks. -/
theorem opacity_band_witness :
    ((0 : ℝ) < 0.02 ∧ (0.02 : ℝ) ≤ 0.03 ∧
      opacityInv 0.02
        { x := 0, y := 0, targetX := 0, targetY := 0, vx := 0, vy := 0,
          size := 1, baseSize := 1, friction := 0.9, ease := 0.05,
          color := "#ff2d55", opacity := 0.5, twinkleSpeed := 0.02 }) ∧
    ((0.4 - 0.02 ≤
        (ticks (fun _ => (0, 0))
          { x := 0, y := 0, targetX := 0, targetY := 0, vx := 0, vy := 0,
            size := 1, baseSize := 1, friction := 0.9, ease := 0.05,
            color := "#ff2d55", opacity := 0.5, twinkleSpeed := 0.02 } 3).opacity ∧
      (ticks (fun _ => (0, 0))
          { x := 0, y := 0, targetX := 0, targetY := 0, vx := 0, vy := 0,
            size := 1, baseSize := 1, friction := 0.9, ease := 0.05,
            color := "#ff2d55", opacity := 0.5, twinkleSpeed := 0.02 } 3).opacity ≤
        1 + 0.02) ∧
     ((ticks (fun _ => (0, 0))
          { x := 0, y := 0, targetX := 0, targetY := 0, vx := 0, vy := 0,
            size := 1, baseSize := 1, friction := 0.9, ease := 0.05,
            color := "#ff2d55", opacity := 0.5, twinkleSpeed := 0.02 } 3).twinkleSpeed =
        0.02 ∨
      (ticks (fun _ => (0, 0))
          { x := 0, y := 0, targetX := 0, targetY := 0, vx := 0, vy := 0,
            size := 1, baseSize := 1, friction := 0.9, ease := 0.05,
            color := "#ff2d55", opacity := 0.5, twinkleSpeed := 0.02 } 3).twinkleSpeed =
        -0.02) ∧
     (((ticks (fun _ => (0, 0))
            { x := 0, y := 0, targetX := 0, targetY := 0, vx := 0, vy := 0,
              size := 1, baseSize := 1, friction := 0.9, ease := 0.05,
              color := "#ff2d55", opacity := 0.5, twinkleSpeed := 0.02 } 3).opacity +
          (ticks (fun _ => (0, 0))
            { x := 0, y := 0, targetX := 0, targetY := 0, vx := 0, vy := 0,
              size := 1, baseSize := 1, friction := 0.9, ease := 0.05,
              color := "#ff2d55", opacity := 0.5, twinkleSpeed := 0.02 } 3).twinkleSpeed >
          1 ∨
        (ticks (fun _ => (0, 0))
            { x := 0, y := 0, targetX := 0, targetY := 0, vx := 0, vy := 0,
              size := 1, baseSize := 1, friction := 0.9, ease := 0.05,
              color := "#ff2d55", opacity := 0.5, twinkleSpeed := 0.02 } 3).opacity +
          (ticks (fun _ => (0, 0))
            { x := 0, y := 0, targetX := 0, targetY := 0, vx := 0, vy := 0,
              size := 1, baseSize := 1, friction := 0.9, ease := 0.05,
              color := "#ff2d55", opacity := 0.5, twinkleSpeed := 0.02 } 3).twinkleSpeed <
          0.4) →
      (ticks (fun _ => (0, 0))
          { x := 0, y := 0, targetX := 0, targetY := 0, vx := 0, vy := 0,
            size := 1, baseSize := 1, friction := 0.9, ease := 0.05,
            color := "#ff2d55", opacity := 0.5, twinkleSpeed := 0.02 } 4).twinkleSpeed =
        -(ticks (fun _ => (0, 0))
            { x := 0, y := 0, targetX := 0, targetY := 0, vx := 0, vy := 0,
              size := 1, baseSize := 1, friction := 0.9, ease := 0.05,
              color := "#ff2d55", opacity := 0.5, twinkleSpeed := 0.02 } 3).twinkleSpeed)) := by
  have hinv : opacityInv 0.02
      { x := 0, y := 0, targetX := 0, targetY := 0, vx := 0, vy := 0,
        size := 1, baseSize := 1, friction := 0.9, ease := 0.05,
        color := "#ff2d55", opacity := 0.5, twinkleSpeed := 0.02 } := by
    unfold opacityInv
    exact ⟨Or.inl rfl, Or.inl ⟨by norm_num, by norm_num⟩⟩
  exact ⟨⟨by norm_num, by norm_num, hinv⟩,
    opacity_band 0.02 _ (fun _ => (0, 0)) (by norm_num) (by norm_num) hinv 3⟩

theorem opacity_two_ticks (p : Particle) (m : ℕ → ℝ × ℝ)
    (h1 : p.opacity = 0.1) (h2 : p.twinkleSpeed = 0.02) :
    (ticks m p 2).opacity = 0.1 := by
  have e1 : ticks m p 1 = p.update (m 0).1 (m 0).2 := rfl
  have e2 : ticks m p 2 = (ticks m p 1).update (m 1).1 (m 1).2 := rfl
  rw [e2, update_opacity, e1, update_opacity, update_twinkleSpeed, h1, h2,
    if_pos (by norm_num : (0.1 : ℝ) + 0.02 > 1 ∨ (0.1 : ℝ) + 0.02 < 0.4)]
  norm_num

/-- Counterexample for C3 as stated: the constructor can draw opacity
`0.1`, which is below `0.4 − ε` for every `ε ≤ 0.03` (the maximum twinkle
speed), immediately after construction — and the particle is still at
opacity `0.1` two ticks later, oscillating near its starting value. -/
theorem opacity_band_counterexample :
    (mkParticle 800 600 0 0
        (fun i => if i = 7 then 0.1 else if i = 8 then 1 / 2 else 0)).opacity =
      0.1 ∧
    (ticks (fun _ => (0, 0))
        (mkParticle 800 600 0 0
          (fun i => if i = 7 then 0.1 else if i = 8 then 1 / 2 else 0))
        2).opacity = 0.1 ∧
    ((0.1 : ℝ) < 0.4 - 0.03) := by
  refine ⟨by norm_num [mkParticle], ?_, by norm_num⟩
  exact opacity_two_ticks _ _ (by norm_num [mkParticle]) (by norm_num [mkParticle])

/-- The x-coordinate centroid of the raw (pre-jitter) candidate set. -/
noncomputable def candCentroidX (alpha : ℕ → ℕ → ℕ) (width height : ℕ) : ℝ :=
  ((((textCandidates alpha width height).map fun p => p.1).sum : ℕ) : ℝ) /
    ((textCandidates alpha width height).length : ℝ)

/-- **C5 (amended).** The centering offset centers the candidate set's
*bounding box*, not its centroid: for any candidate set (the claim's
non-degeneracy hypothesis included), the bounding-box center plus the
computed offset equals the viewport center exactly, on both axes.  The
post-offset *centroid* can sit far from the viewport center (see the
counterexample), so the claim as stated fails. -/
theorem bbox_centering (alpha : ℕ → ℕ → ℕ) (width height : ℕ)
    (h : textCandidates alpha width height ≠ []) :
    ((bboxMinX alpha width height : ℝ) + (bboxMaxX alpha width height : ℝ)) / 2 +
        offsetX alpha width height = (width : ℝ) / 2 ∧
    ((bboxMinY alpha width height : ℝ) + (bboxMaxY alpha width height : ℝ)) / 2 +
        offsetY alpha width height = (height : ℝ) / 2 := by
  unfold offsetX offsetY
  constructor <;> ring

/-- Witness for C5 (amended): a concrete 102×1 mask with candidate pixels
at x ∈ {0, 2, 100}. -/
theorem bbox_centering_witness :
    textCandidates (fun x _ => if x = 0 ∨ x = 2 ∨ x = 100 then 255 else 0) 102 1 ≠ [] ∧
    ((bboxMinX (fun x _ => if x = 0 ∨ x = 2 ∨ x = 100 then 255 else 0) 102 1 : ℝ) +
          (bboxMaxX (fun x _ => if x = 0 ∨ x = 2 ∨ x = 100 then 255 else 0) 102 1 : ℝ)) /
            2 +
        offsetX (fun x _ => if x = 0 ∨ x = 2 ∨ x = 100 then 255 else 0) 102 1 =
      ((102 : ℕ) : ℝ) / 2 :=
  ⟨by decide,
   (bbox_centering (fun x _ => if x = 0 ∨ x = 2 ∨ x = 100 then 255 else 0) 102 1
      (by decide)).1⟩

/-- Counterexample for C5 as stated: for the 102×1 mask with candidate
pixels at x ∈ {0, 2, 100}, the pre-jitter candidate centroid after the
centering offset lands at x = 35, a full 16 pixels (more than 15% of the
viewport width) away from the viewport center x = 51. -/
theorem centroid_centering_counterexample :
    |candCentroidX (fun x _ => if x = 0 ∨ x = 2 ∨ x = 100 then 255 else 0) 102 1 +
        offsetX (fun x _ => if x = 0 ∨ x = 2 ∨ x = 100 then 255 else 0) 102 1 -
        ((102 : ℕ) : ℝ) / 2| = 16 ∧
    ((16 : ℝ) ≥ 0.15 * 102) := by
  have hc : textCandidates (fun x _ => if x = 0 ∨ x = 2 ∨ x = 100 then 255 else 0)
      102 1 = [(0, 0), (2, 0), (100, 0)] := by decide
  have hmin : bboxMinX (fun x _ => if x = 0 ∨ x = 2 ∨ x = 100 then 255 else 0)
      102 1 = 0 := by decide
  have hmax : bboxMaxX (fun x _ => if x = 0 ∨ x = 2 ∨ x = 100 then 255 else 0)
      102 1 = 100 := by decide
  constructor
  · unfold candCentroidX offsetX
    rw [hc, hmin, hmax]
    simp only [List.map_cons, List.map_nil, List.sum_cons, List.sum_nil,
      List.length_cons, List.length_nil]
    norm_num
  · norm_num

theorem update_far (p : Particle) (mx my : ℝ)
    (h : ¬ ((p.x - mx) * (p.x - mx) + (p.y - my) * (p.y - my) <
        MOUSE_RADIUS * MOUSE_RADIUS)) :
    (p.update mx my).vx = (p.vx + (p.targetX - p.x) * p.ease) * p.friction ∧
    (p.update mx my).vy = (p.vy + (p.targetY - p.y) * p.ease) * p.friction ∧
    (p.update mx my).x = p.x + (p.vx + (p.targetX - p.x) * p.ease) * p.friction ∧
    (p.update mx my).y = p.y + (p.vy + (p.targetY - p.y) * p.ease) * p.friction := by
  simp only [Particle.update, h, if_false, reduceIte]
  refine ⟨?_, ?_, ?_, ?_⟩ <;> first | rfl | trivial

theorem ticks_const_fields (mouse : ℕ → ℝ × ℝ) (p : Particle) (k : ℕ) :
    (ticks mouse p k).targetX = p.targetX ∧
    (ticks mouse p k).targetY = p.targetY ∧
    (ticks mouse p k).ease = p.ease ∧
    (ticks mouse p k).friction = p.friction := by
  induction k with
  | zero => exact ⟨rfl, rfl, rfl, rfl⟩
  | succ k ih => exact ⟨ih.1, ih.2.1, ih.2.2.1, ih.2.2.2⟩

/-- The quadratic Lyapunov function of the no-mouse spring recurrence
`v' = (v − e·u)·0.9`, `u' = u + v'`: it contracts by the exact factor
`0.9` every tick. -/
noncomputable def springEnergy (e u v : ℝ) : ℝ :=
  9 / 10 * e * u ^ 2 + (1 / 10 - 9 / 10 * e) * (u * v) + 9 / 10 * v ^ 2

theorem springEnergy_step (e x T v : ℝ) :
    springEnergy e (x + (v + (T - x) * e) * (9 / 10) - T) ((v + (T - x) * e) * (9 / 10)) =
      9 / 10 * springEnergy e (x - T) v := by
  unfold springEnergy
  ring

theorem springEnergy_lower (e u v : ℝ) (h1 : 1 / 20 ≤ e) (h2 : e ≤ 1 / 10) :
    7 / 400 * (u ^ 2 + v ^ 2) ≤ springEnergy e u v := by
  unfold springEnergy
  nlinarith [sq_nonneg (u + v), sq_nonneg (u - v), sq_nonneg u, sq_nonneg v,
    mul_nonneg (by linarith : (0 : ℝ) ≤ e - 1 / 20) (sq_nonneg (u - v)),
    mul_nonneg (by linarith : (0 : ℝ) ≤ e - 1 / 20) (sq_nonneg u),
    mul_nonneg (by linarith : (0 : ℝ) ≤ 171 / 200 - 9 / 20 * (e - 1 / 20))
      (sq_nonneg v)]

theorem springEnergy_upper (e u v : ℝ) (h1 : 1 / 20 ≤ e) (h2 : e ≤ 1 / 10) :
    springEnergy e u v ≤ 371 / 400 * (u ^ 2 + v ^ 2) := by
  unfold springEnergy
  nlinarith [sq_nonneg (u + v), sq_nonneg (u - v), sq_nonneg u, sq_nonneg v,
    mul_nonneg (by linarith : (0 : ℝ) ≤ 1 / 10 - 9 / 10 * e) (sq_nonneg (u - v)),
    mul_nonneg (by linarith : (0 : ℝ) ≤ 9 / 20 * e - 9 / 400) (sq_nonneg v),
    mul_nonneg (by linarith : (0 : ℝ) ≤ 351 / 400 - 9 / 20 * e) (sq_nonneg u)]

/-- **C8 (amended).** With the constructor's parameter ranges
(`friction = 0.9`, `ease ∈ [0.05, 0.1]`) and the mouse outside the
interaction radius on every tick, the combined squared distance-to-target
and squared speed decay geometrically:
`dist² ≤ 53·(0.9)ⁿ·E₀` and `speed² ≤ 53·(0.9)ⁿ·E₀` with
`E₀ = dist₀² + speed₀²`.  So the velocity magnitude stays bounded and the
distance to target converges to `0` over a run of ticks — but it does
*not* strictly decrease tick by tick (see the counterexample: the spring
is underdamped and overshoots). -/
theorem damped_convergence (p : Particle) (mouse : ℕ → ℝ × ℝ)
    (hf : p.friction = 9 / 10) (he1 : 1 / 20 ≤ p.ease) (he2 : p.ease ≤ 1 / 10)
    (hfar : ∀ k, ¬ (((ticks mouse p k).x - (mouse k).1) *
          ((ticks mouse p k).x - (mouse k).1) +
        ((ticks mouse p k).y - (mouse k).2) *
          ((ticks mouse p k).y - (mouse k).2) <
        MOUSE_RADIUS * MOUSE_RADIUS))
    (n : ℕ) :
    ((ticks mouse p n).x - p.targetX) ^ 2 + ((ticks mouse p n).y - p.targetY) ^ 2 ≤
      53 * (9 / 10) ^ n *
        ((p.x - p.targetX) ^ 2 + (p.y - p.targetY) ^ 2 + p.vx ^ 2 + p.vy ^ 2) ∧
    (ticks mouse p n).vx ^ 2 + (ticks mouse p n).vy ^ 2 ≤
      53 * (9 / 10) ^ n *
        ((p.x - p.targetX) ^ 2 + (p.y - p.targetY) ^ 2 + p.vx ^ 2 + p.vy ^ 2) := by
  have hW : ∀ k,
      springEnergy p.ease ((ticks mouse p k).x - p.targetX) (ticks mouse p k).vx +
        springEnergy p.ease ((ticks mouse p k).y - p.targetY) (ticks mouse p k).vy =
      (9 / 10) ^ k *
        (springEnergy p.ease (p.x - p.targetX) p.vx +
          springEnergy p.ease (p.y - p.targetY) p.vy) := by
    intro k
    induction k with
    | zero =>
      have e0 : ticks mouse p 0 = p := rfl
      rw [e0, pow_zero, one_mul]
    | succ k ih =>
      obtain ⟨hvx, hvy, hx, hy⟩ :=
        update_far (ticks mouse p k) (mouse k).1 (mouse k).2 (hfar k)
      obtain ⟨htX, htY, hE, hF⟩ := ticks_const_fields mouse p k
      have e1 : ticks mouse p (k + 1) =
          (ticks mouse p k).update (mouse k).1 (mouse k).2 := rfl
      rw [e1, hvx, hvy, hx, hy, htX, htY, hE, hF, hf, springEnergy_step,
        springEnergy_step]
      calc 9 / 10 * springEnergy p.ease ((ticks mouse p k).x - p.targetX)
              (ticks mouse p k).vx +
            9 / 10 * springEnergy p.ease ((ticks mouse p k).y - p.targetY)
              (ticks mouse p k).vy
          = 9 / 10 *
              (springEnergy p.ease ((ticks mouse p k).x - p.targetX)
                  (ticks mouse p k).vx +
                springEnergy p.ease ((ticks mouse p k).y - p.targetY)
                  (ticks mouse p k).vy) := by ring
        _ = 9 / 10 * ((9 / 10) ^ k *
              (springEnergy p.ease (p.x - p.targetX) p.vx +
                springEnergy p.ease (p.y - p.targetY) p.vy)) := by rw [ih]
        _ = (9 / 10) ^ (k + 1) *
              (springEnergy p.ease (p.x - p.targetX) p.vx +
                springEnergy p.ease (p.y - p.targetY) p.vy) := by ring
  have hlx := springEnergy_lower p.ease ((ticks mouse p n).x - p.targetX)
    (ticks mouse p n).vx he1 he2
  have hly := springEnergy_lower p.ease ((ticks mouse p n).y - p.targetY)
    (ticks mouse p n).vy he1 he2
  have hux := springEnergy_upper p.ease (p.x - p.targetX) p.vx he1 he2
  have huy := springEnergy_upper p.ease (p.y - p.targetY) p.vy he1 he2
  have hpow : (0 : ℝ) ≤ (9 / 10) ^ n := pow_nonneg (by norm_num) n
  have hchain : (9 / 10 : ℝ) ^ n *
      (springEnergy p.ease (p.x - p.targetX) p.vx +
        springEnergy p.ease (p.y - p.targetY) p.vy) ≤
      (9 / 10) ^ n * (371 / 400 *
        ((p.x - p.targetX) ^ 2 + p.vx ^ 2 + ((p.y - p.targetY) ^ 2 + p.vy ^ 2))) :=
    mul_le_mul_of_nonneg_left (by linarith) hpow
  have hWn := hW n
  constructor
  · nlinarith [sq_nonneg (ticks mouse p n).vx, sq_nonneg (ticks mouse p n).vy]
  · nlinarith [sq_nonneg ((ticks mouse p n).x - p.targetX),
      sq_nonneg ((ticks mouse p n).y - p.targetY)]

theorem ticks_y_zero (mouse : ℕ → ℝ × ℝ) (p : Particle)
    (hy : p.y = 0) (hvy : p.vy = 0) (htY : p.targetY = 0)
    (hmy : ∀ k, (mouse k).2 = -1000) :
    ∀ k, (ticks mouse p k).y = 0 ∧ (ticks mouse p k).vy = 0 := by
  intro k
  induction k with
  | zero => exact ⟨hy, hvy⟩
  | succ k ih =>
    have hfark : ¬ (((ticks mouse p k).x - (mouse k).1) *
          ((ticks mouse p k).x - (mouse k).1) +
        ((ticks mouse p k).y - (mouse k).2) *
          ((ticks mouse p k).y - (mouse k).2) <
        MOUSE_RADIUS * MOUSE_RADIUS) := by
      rw [ih.1, hmy k]
      simp only [MOUSE_RADIUS]
      intro hlt
      nlinarith [mul_self_nonneg ((ticks mouse p k).x - (mouse k).1)]
    obtain ⟨hvx2, hvy2, hx2, hy2⟩ :=
      update_far (ticks mouse p k) (mouse k).1 (mouse k).2 hfark
    have e1 : ticks mouse p (k + 1) =
        (ticks mouse p k).update (mouse k).1 (mouse k).2 := rfl
    have htYk : (ticks mouse p k).targetY = 0 :=
      ((ticks_const_fields mouse p k).2.1).trans htY
    constructor
    · rw [e1, hy2, ih.1, htYk, ih.2]; ring
    · rw [e1, hvy2, ih.1, htYk, ih.2]; ring

theorem mouse_far_of_y_zero (mouse : ℕ → ℝ × ℝ) (p : Particle)
    (hy : p.y = 0) (hvy : p.vy = 0) (htY : p.targetY = 0)
    (hmy : ∀ k, (mouse k).2 = -1000) :
    ∀ k, ¬ (((ticks mouse p k).x - (mouse k).1) *
          ((ticks mouse p k).x - (mouse k).1) +
        ((ticks mouse p k).y - (mouse k).2) *
          ((ticks mouse p k).y - (mouse k).2) <
        MOUSE_RADIUS * MOUSE_RADIUS) := by
  intro k
  rw [(ticks_y_zero mouse p hy hvy htY hmy k).1, hmy k]
  simp only [MOUSE_RADIUS]
  intro hlt
  nlinarith [mul_self_nonneg ((ticks mouse p k).x - (mouse k).1)]

/-- Witness for C8 (amended): a particle at `(50, 0)` with velocity
`(4, 0)`, target the origin, mouse parked at `(-1000, -1000)` (outside the
radius at every tick), checked after two ticks. -/
theorem damped_convergence_witness :
    (∀ k, ¬ (((ticks (fun _ => (-1000, -1000))
            { x := 50, y := 0, targetX := 0, targetY := 0, vx := 4, vy := 0,
              size := 1, baseSize := 1, friction := 9 / 10, ease := 1 / 20,
              color := "#ff2d55", opacity := 1 / 2, twinkleSpeed := 1 / 50 }
            k).x - ((fun _ : ℕ => ((-1000 : ℝ), (-1000 : ℝ))) k).1) *
          ((ticks (fun _ => (-1000, -1000))
            { x := 50, y := 0, targetX := 0, targetY := 0, vx := 4, vy := 0,
              size := 1, baseSize := 1, friction := 9 / 10, ease := 1 / 20,
              color := "#ff2d55", opacity := 1 / 2, twinkleSpeed := 1 / 50 }
            k).x - ((fun _ : ℕ => ((-1000 : ℝ), (-1000 : ℝ))) k).1) +
        ((ticks (fun _ => (-1000, -1000))
            { x := 50, y := 0, targetX := 0, targetY := 0, vx := 4, vy := 0,
              size := 1, baseSize := 1, friction := 9 / 10, ease := 1 / 20,
              color := "#ff2d55", opacity := 1 / 2, twinkleSpeed := 1 / 50 }
            k).y - ((fun _ : ℕ => ((-1000 : ℝ), (-1000 : ℝ))) k).2) *
          ((ticks (fun _ => (-1000, -1000))
            { x := 50, y := 0, targetX := 0, targetY := 0, vx := 4, vy := 0,
              size := 1, baseSize := 1, friction := 9 / 10, ease := 1 / 20,
              color := "#ff2d55", opacity := 1 / 2, twinkleSpeed := 1 / 50 }
            k).y - ((fun _ : ℕ => ((-1000 : ℝ), (-1000 : ℝ))) k).2) <
        MOUSE_RADIUS * MOUSE_RADIUS)) ∧
    ((ticks (fun _ => (-1000, -1000))
          { x := 50, y := 0, targetX := 0, targetY := 0, vx := 4, vy := 0,
            size := 1, baseSize := 1, friction := 9 / 10, ease := 1 / 20,
            color := "#ff2d55", opacity := 1 / 2, twinkleSpeed := 1 / 50 }
          2).x - (0 : ℝ)) ^ 2 +
      ((ticks (fun _ => (-1000, -1000))
          { x := 50, y := 0, targetX := 0, targetY := 0, vx := 4, vy := 0,
            size := 1, baseSize := 1, friction := 9 / 10, ease := 1 / 20,
            color := "#ff2d55", opacity := 1 / 2, twinkleSpeed := 1 / 50 }
          2).y - (0 : ℝ)) ^ 2 ≤
      53 * (9 / 10) ^ 2 *
        (((50 : ℝ) - 0) ^ 2 + ((0 : ℝ) - 0) ^ 2 + (4 : ℝ) ^ 2 + (0 : ℝ) ^ 2) := by
  have hfar := mouse_far_of_y_zero (fun _ => (-1000, -1000))
    { x := 50, y := 0, targetX := 0, targetY := 0, vx := 4, vy := 0,
      size := 1, baseSize := 1, friction := 9 / 10, ease := 1 / 20,
      color := "#ff2d55", opacity := 1 / 2, twinkleSpeed := 1 / 50 }
    rfl rfl rfl (fun _ => rfl)
  exact ⟨hfar,
    (damped_convergence
      { x := 50, y := 0, targetX := 0, targetY := 0, vx := 4, vy := 0,
        size := 1, baseSize := 1, friction := 9 / 10, ease := 1 / 20,
        color := "#ff2d55", opacity := 1 / 2, twinkleSpeed := 1 / 50 }
      (fun _ => (-1000, -1000)) rfl (by norm_num) (by norm_num) hfar 2).1⟩

/-- Counterexample for C8 as stated: a particle at distance 50 from its
target with a modest velocity (4, within the constructor's initial range)
pointing away from it, mouse far outside the interaction radius, gets
*farther* from the target in one tick (50 → 51.35): the distance to target
does not strictly decrease, and this is not "near convergence". -/
theorem damped_convergence_counterexample :
    (¬ ((((50 : ℝ) - -1000) * ((50 : ℝ) - -1000) +
        ((0 : ℝ) - -1000) * ((0 : ℝ) - -1000)) <
        MOUSE_RADIUS * MOUSE_RADIUS)) ∧
    (Particle.update
        { x := 50, y := 0, targetX := 0, targetY := 0, vx := 4, vy := 0,
          size := 1, baseSize := 1, friction := 9 / 10, ease := 1 / 20,
          color := "#ff2d55", opacity := 1 / 2, twinkleSpeed := 1 / 50 }
        (-1000) (-1000)).x = 1027 / 20 ∧
    |(1027 / 20 : ℝ) - 0| > |(50 : ℝ) - 0| := by
  have hfar1 : ¬ ((((50 : ℝ) - -1000) * ((50 : ℝ) - -1000) +
      ((0 : ℝ) - -1000) * ((0 : ℝ) - -1000)) <
      MOUSE_RADIUS * MOUSE_RADIUS) := by
    simp only [MOUSE_RADIUS]
    norm_num
  refine ⟨hfar1, ?_, by rw [abs_of_nonneg (by norm_num : (0:ℝ) ≤ 1027 / 20 - 0)]; norm_num⟩
  rw [(update_far
      { x := 50, y := 0, targetX := 0, targetY := 0, vx := 4, vy := 0,
        size := 1, baseSize := 1, friction := 9 / 10, ease := 1 / 20,
        color := "#ff2d55", opacity := 1 / 2, twinkleSpeed := 1 / 50 }
      (-1000) (-1000) hfar1).2.2.1]
  norm_num

theorem cos_poly (t : ℝ) :
    13 * Real.cos t - 5 * Real.cos (2 * t) - 2 * Real.cos (3 * t) -
        Real.cos (4 * t) =
      -8 * Real.cos t ^ 4 - 8 * Real.cos t ^ 3 - 2 * Real.cos t ^ 2 +
        19 * Real.cos t + 4 := by
  have h4 : Real.cos (4 * t) = 2 * Real.cos (2 * t) ^ 2 - 1 := by
    rw [show (4 : ℝ) * t = 2 * (2 * t) by ring, Real.cos_two_mul]
  rw [h4, Real.cos_two_mul, Real.cos_three_mul]
  ring

theorem g_bounds (c : ℝ) (h1 : -1 ≤ c) (h2 : c ≤ 1) :
    -17 ≤ -8 * c ^ 4 - 8 * c ^ 3 - 2 * c ^ 2 + 19 * c + 4 ∧
    -8 * c ^ 4 - 8 * c ^ 3 - 2 * c ^ 2 + 19 * c + 4 ≤ 16 := by
  constructor
  · have hcube : (0 : ℝ) ≤ 21 - 8 * c ^ 3 - 2 * c := by
      nlinarith [mul_nonneg (by linarith : (0 : ℝ) ≤ 1 - c)
        (by nlinarith [sq_nonneg (2 * c + 1)] : (0 : ℝ) ≤ 1 + c + c ^ 2)]
    nlinarith [mul_nonneg (by linarith : (0 : ℝ) ≤ c + 1) hcube]
  · rcases le_or_lt c 0 with hc | hc
    · nlinarith [mul_nonneg (by linarith : (0 : ℝ) ≤ 1 + c)
        (by nlinarith [sq_nonneg (2 * c - 1)] : (0 : ℝ) ≤ 1 - c + c ^ 2),
        sq_nonneg c, sq_nonneg (c ^ 2)]
    · nlinarith [mul_nonneg (sq_nonneg (10 * c - 9))
        (by linarith : (0 : ℝ) ≤ 8 * c + 72 / 5),
        sq_nonneg c, sq_nonneg (c ^ 2), mul_pos hc hc]

theorem sin_cube_bounds (s : ℝ) (h1 : -1 ≤ s) (h2 : s ≤ 1) :
    -1 ≤ s ^ 3 ∧ s ^ 3 ≤ 1 := by
  constructor
  · nlinarith [mul_nonneg (by linarith : (0 : ℝ) ≤ 1 + s)
      (by nlinarith [sq_nonneg (2 * s - 1)] : (0 : ℝ) ≤ 1 - s + s ^ 2)]
  · nlinarith [mul_nonneg (by linarith : (0 : ℝ) ≤ 1 - s)
      (by nlinarith [sq_nonneg (2 * s + 1)] : (0 : ℝ) ≤ 1 + s + s ^ 2)]

theorem heartPoint_box (W H r : ℝ) :
    |(heartPoint W H r).x - W / 2| ≤ 224 ∧ |(heartPoint W H r).y - H / 2| ≤ 294 := by
  have hx : (heartPoint W H r).x =
      W / 2 + 16 * Real.sin (r * Real.pi * 2) ^ 3 * 14 := rfl
  have hy : (heartPoint W H r).y =
      H / 2 + -(13 * Real.cos (r * Real.pi * 2) -
          5 * Real.cos (2 * (r * Real.pi * 2)) -
          2 * Real.cos (3 * (r * Real.pi * 2)) -
          Real.cos (4 * (r * Real.pi * 2))) * 14 := rfl
  obtain ⟨hs1, hs2⟩ := sin_cube_bounds (Real.sin (r * Real.pi * 2))
    (Real.neg_one_le_sin _) (Real.sin_le_one _)
  constructor
  · rw [hx, abs_le]
    constructor <;> nlinarith
  · rw [hy, abs_le]
    have c1 := Real.neg_one_le_cos (r * Real.pi * 2)
    have c2 := Real.cos_le_one (r * Real.pi * 2)
    have c3 := Real.neg_one_le_cos (2 * (r * Real.pi * 2))
    have c4 := Real.cos_le_one (2 * (r * Real.pi * 2))
    have c5 := Real.neg_one_le_cos (3 * (r * Real.pi * 2))
    have c6 := Real.cos_le_one (3 * (r * Real.pi * 2))
    have c7 := Real.neg_one_le_cos (4 * (r * Real.pi * 2))
    have c8 := Real.cos_le_one (4 * (r * Real.pi * 2))
    constructor <;> nlinarith

theorem heartPoint_inside (W H r : ℝ) (hW : 448 ≤ W) (hH : 476 ≤ H) :
    0 ≤ (heartPoint W H r).x ∧ (heartPoint W H r).x ≤ W ∧
    0 ≤ (heartPoint W H r).y ∧ (heartPoint W H r).y ≤ H := by
  have hx : (heartPoint W H r).x =
      W / 2 + 16 * Real.sin (r * Real.pi * 2) ^ 3 * 14 := rfl
  have hy : (heartPoint W H r).y =
      H / 2 + -(13 * Real.cos (r * Real.pi * 2) -
          5 * Real.cos (2 * (r * Real.pi * 2)) -
          2 * Real.cos (3 * (r * Real.pi * 2)) -
          Real.cos (4 * (r * Real.pi * 2))) * 14 := rfl
  obtain ⟨hs1, hs2⟩ := sin_cube_bounds (Real.sin (r * Real.pi * 2))
    (Real.neg_one_le_sin _) (Real.sin_le_one _)
  have hpoly := cos_poly (r * Real.pi * 2)
  obtain ⟨hg1, hg2⟩ := g_bounds (Real.cos (r * Real.pi * 2))
    (Real.neg_one_le_cos _) (Real.cos_le_one _)
  refine ⟨?_, ?_, ?_, ?_⟩
  · rw [hx]; nlinarith
  · rw [hx]; nlinarith
  · rw [hy]; nlinarith
  · rw [hy]; nlinarith

theorem heartPoint_quarter_x (W H : ℝ) :
    (heartPoint W H (1 / 4)).x = W / 2 + 224 := by
  have hx : (heartPoint W H (1 / 4)).x =
      W / 2 + 16 * Real.sin ((1 / 4 : ℝ) * Real.pi * 2) ^ 3 * 14 := rfl
  rw [hx, show (1 / 4 : ℝ) * Real.pi * 2 = Real.pi / 2 by ring,
    Real.sin_pi_div_two]
  norm_num

theorem heartPoint_half_y (W H : ℝ) :
    (heartPoint W H (1 / 2)).y = H / 2 + 238 := by
  have hy : (heartPoint W H (1 / 2)).y =
      H / 2 + -(13 * Real.cos ((1 / 2 : ℝ) * Real.pi * 2) -
          5 * Real.cos (2 * ((1 / 2 : ℝ) * Real.pi * 2)) -
          2 * Real.cos (3 * ((1 / 2 : ℝ) * Real.pi * 2)) -
          Real.cos (4 * ((1 / 2 : ℝ) * Real.pi * 2))) * 14 := rfl
  rw [hy, show (1 / 2 : ℝ) * Real.pi * 2 = Real.pi by ring, Real.cos_pi,
    Real.cos_two_pi,
    show (3 : ℝ) * Real.pi = Real.pi + 2 * Real.pi by ring,
    Real.cos_add_two_pi, Real.cos_pi,
    show (4 : ℝ) * Real.pi = 2 * Real.pi + 2 * Real.pi by ring,
    Real.cos_add_two_pi, Real.cos_two_pi]
  norm_num

theorem heartPoint_mem (W H : ℝ) (rand : ℕ → ℝ) :
    heartPoint W H (rand 0) ∈ getHeartPoints W H rand := by
  rw [getHeartPoints]
  exact List.mem_map.mpr ⟨0, List.mem_range.mpr (by norm_num [PARTICLE_COUNT]), rfl⟩

/-- **C9 (amended).** Every heart point lies in the viewport-independent
box `|x − W/2| ≤ 224`, `|y − H/2| ≤ 294` around the viewport center (the
claim's box, from `16·HEART_SCALE = 224` and `21·HEART_SCALE = 294`).
However, escapes happen exactly below width 448 and below height **476**
(not 588): for `W ≥ 448` and `H ≥ 476` *no* sampled heart point can leave
the viewport (the parametric curve really spans `[−16, 16] × [−16, 17]`
before scaling), while for `W < 448` (resp. `H < 476`) a draw exists whose
point lies outside. -/
theorem heart_box (W H : ℝ) (rand : ℕ → ℝ) :
    (∀ q ∈ getHeartPoints W H rand,
        |q.x - W / 2| ≤ 224 ∧ |q.y - H / 2| ≤ 294) ∧
    (448 ≤ W → 476 ≤ H → ∀ q ∈ getHeartPoints W H rand,
        0 ≤ q.x ∧ q.x ≤ W ∧ 0 ≤ q.y ∧ q.y ≤ H) ∧
    (W < 448 → ∃ rand2 : ℕ → ℝ, ∃ q ∈ getHeartPoints W H rand2, W < q.x) ∧
    (H < 476 → ∃ rand2 : ℕ → ℝ, ∃ q ∈ getHeartPoints W H rand2, H < q.y) := by
  refine ⟨?_, ?_, ?_, ?_⟩
  · intro q hq
    rw [getHeartPoints] at hq
    obtain ⟨i, -, rfl⟩ := List.mem_map.mp hq
    exact heartPoint_box W H (rand i)
  · intro hW hH q hq
    rw [getHeartPoints] at hq
    obtain ⟨i, -, rfl⟩ := List.mem_map.mp hq
    exact heartPoint_inside W H (rand i) hW hH
  · intro hW
    refine ⟨fun _ => 1 / 4, heartPoint W H (1 / 4), heartPoint_mem W H _, ?_⟩
    rw [heartPoint_quarter_x]
    linarith
  · intro hH
    refine ⟨fun _ => 1 / 2, heartPoint W H (1 / 2), heartPoint_mem W H _, ?_⟩
    rw [heartPoint_half_y]
    linarith

/-- Witness for C9 (amended): on a 300×400 viewport both escape draws
exist. -/
theorem heart_box_witness :
    ((300 : ℝ) < 448) ∧ ((400 : ℝ) < 476) ∧
    (∃ rand2 : ℕ → ℝ, ∃ q ∈ getHeartPoints 300 400 rand2, (300 : ℝ) < q.x) ∧
    (∃ rand2 : ℕ → ℝ, ∃ q ∈ getHeartPoints 300 400 rand2, (400 : ℝ) < q.y) := by
  refine ⟨by norm_num, by norm_num, ?_, ?_⟩
  · exact (heart_box 300 400 (fun _ => 0)).2.2.1 (by norm_num)
  · exact (heart_box 300 400 (fun _ => 0)).2.2.2 (by norm_num)

/-- Counterexample for C9 as stated: a 1000×500 viewport is "shorter than
588", yet *no* heart target point can lie outside it, for any random
draw — the claimed escape threshold 588 is wrong (the true vertical
threshold is 476). -/
theorem heart_box_counterexample :
    ((500 : ℝ) < 588) ∧
    ¬ ∃ (rand : ℕ → ℝ) (q : Point), q ∈ getHeartPoints 1000 500 rand ∧
        (q.x < 0 ∨ 1000 < q.x ∨ q.y < 0 ∨ 500 < q.y) := by
  refine ⟨by norm_num, ?_⟩
  rintro ⟨rand, q, hq, hout⟩
  rw [getHeartPoints] at hq
  obtain ⟨i, -, rfl⟩ := List.mem_map.mp hq
  have hin := heartPoint_inside 1000 500 (rand i) (by norm_num) (by norm_num)
  rcases hout with h | h | h | h <;>
    linarith [hin.1, hin.2.1, hin.2.2.1, hin.2.2.2]

end Morph
